import Mathlib

/-!
Shallow embedding of `dags/simple_el_3.py`: a single Airflow DAG that uploads
one CSV file to S3, verifies the uploaded object's ETag against an MD5 hash of
the local file, loads the data into Redshift, and runs per-row data quality
checks generated from a ground-truth JSON mapping.

The embedding models:
* the constants `CSV_FILE_NAME` / `CSV_FILE_PATH`;
* the S3 object store as an association list of (bucket, key, content);
* the task body `upload_to_s3` (S3Hook.load_file with replace=True);
* the task body `validate_etag` (S3Hook.get_key, ETag quote stripping,
  Python text-mode read of the local file followed by `.encode("utf-8")`,
  comparison against the backend-reported digest);
* the row-quality-check generator (the TaskGroup for-loop over the JSON
  ground-truth mapping, including the dict mutations `values["id"] = id`
  and `values["redshift_table"] = ...`);
* the declared dependency edges of the DAG (lines 163-167 of the source,
  plus the implicit TaskFlow edge upload_file -> validate_file, with
  TaskGroup edges expanded to the group's member tasks).

External library functions that are opaque to this repository are parameters:
`md5hex` stands for `hashlib.md5(...).hexdigest()` and `etagOf` for the
digest string the storage backend reports for a stored object's content.
File contents are byte lists (`List Nat`, each entry < 256 in intent).
-/

namespace SimpleEl3

/-- `CSV_FILE_NAME = "forestfires.csv"` from the source. -/
def CSV_FILE_NAME : String := "forestfires.csv"

/-- `CSV_FILE_PATH = f"include/sample_data/<CSV_FILE_NAME>"` from the source. -/
def CSV_FILE_PATH : String := "include/sample_data/" ++ CSV_FILE_NAME

/-- The configuration record stored in the Airflow Variable `aws_configs`. -/
structure AwsConfigs where
  s3_bucket : String
  s3_key_pfx : String
  redshift_table : String
  deriving Repr, DecidableEq

/-- The descriptor returned by `upload_to_s3` and consumed by `validate_etag`. -/
structure S3Data where
  s3_bucket : String
  s3_key : String
  deriving Repr, DecidableEq

/-- One stored object in the S3 model. -/
structure S3Entry where
  bucket : String
  key : String
  content : List Nat
  deriving Repr, DecidableEq

/-- The object store: an association list of stored objects. -/
abbrev S3Store := List S3Entry

/-- Errors the Python task bodies can raise. -/
inductive PyError where
  | fileNotFound
  | noSuchKey
  | unicodeDecodeError
  | airflowException (msg : String)
  deriving Repr, DecidableEq

/-- Look up the content stored at (bucket, key); first match wins. -/
def lookupStore : S3Store → String → String → Option (List Nat)
  | [], _, _ => none
  | e :: rest, bucket, key =>
    if e.bucket = bucket ∧ e.key = key then some e.content
    else lookupStore rest bucket key

/-- How many objects the store holds at (bucket, key). -/
def countAtKey (store : S3Store) (bucket key : String) : Nat :=
  store.countP (fun e => decide (e.bucket = bucket ∧ e.key = key))

/-- `S3Hook.load_file(..., replace=True)`: after the call the store holds the
new bytes at (bucket, key) and any previous object at that key is gone. -/
def s3_load_file (store : S3Store) (bytes : List Nat) (key bucket : String) : S3Store :=
  { bucket := bucket, key := key, content := bytes } ::
    store.filter (fun e => ! decide (e.bucket = bucket ∧ e.key = key))

/-- The `upload_to_s3` task body: computes the destination key as
`s3_key_prefix + "/" + CSV_FILE_PATH`, loads the local file's bytes with
replace semantics, and returns the destination coordinates. -/
def upload_to_s3 (cfg : AwsConfigs) (fs : String → Option (List Nat))
    (store : S3Store) : Except PyError (S3Store × S3Data) :=
  let s3_key := cfg.s3_key_pfx ++ "/" ++ CSV_FILE_PATH
  match fs CSV_FILE_PATH with
  | none => .error .fileNotFound
  | some bytes =>
      .ok (s3_load_file store bytes s3_key cfg.s3_bucket,
           { s3_bucket := cfg.s3_bucket, s3_key := s3_key })

/-- Decode a UTF-8 byte sequence into code points, rejecting truncated
sequences, bad continuation bytes, overlong forms, surrogates and
code points above 0x10FFFF — the checks Python's strict utf-8 codec makes. -/
def utf8Decode : List Nat → Option (List Nat)
  | [] => some []
  | b1 :: rest =>
    if b1 < 0x80 then
      (utf8Decode rest).map (b1 :: ·)
    else if 0xC2 ≤ b1 ∧ b1 ≤ 0xDF then
      match rest with
      | b2 :: rest2 =>
        if 0x80 ≤ b2 ∧ b2 ≤ 0xBF then
          (utf8Decode rest2).map (((b1 - 0xC0) * 0x40 + (b2 - 0x80)) :: ·)
        else none
      | [] => none
    else if 0xE0 ≤ b1 ∧ b1 ≤ 0xEF then
      match rest with
      | b2 :: b3 :: rest3 =>
        let cp := (b1 - 0xE0) * 0x1000 + (b2 - 0x80) * 0x40 + (b3 - 0x80)
        if 0x80 ≤ b2 ∧ b2 ≤ 0xBF ∧ 0x80 ≤ b3 ∧ b3 ≤ 0xBF
            ∧ 0x800 ≤ cp ∧ ¬ (0xD800 ≤ cp ∧ cp ≤ 0xDFFF) then
          (utf8Decode rest3).map (cp :: ·)
        else none
      | _ => none
    else if 0xF0 ≤ b1 ∧ b1 ≤ 0xF4 then
      match rest with
      | b2 :: b3 :: b4 :: rest4 =>
        let cp := (b1 - 0xF0) * 0x40000 + (b2 - 0x80) * 0x1000
                  + (b3 - 0x80) * 0x40 + (b4 - 0x80)
        if 0x80 ≤ b2 ∧ b2 ≤ 0xBF ∧ 0x80 ≤ b3 ∧ b3 ≤ 0xBF ∧ 0x80 ≤ b4 ∧ b4 ≤ 0xBF
            ∧ 0x10000 ≤ cp ∧ cp ≤ 0x10FFFF then
          (utf8Decode rest4).map (cp :: ·)
        else none
      | _ => none
    else none

/-- Encode one code point as UTF-8 bytes. -/
def utf8EncodeChar (c : Nat) : List Nat :=
  if c < 0x80 then [c]
  else if c < 0x800 then [0xC0 + c / 0x40, 0x80 + c % 0x40]
  else if c < 0x10000 then
    [0xE0 + c / 0x1000, 0x80 + (c / 0x40) % 0x40, 0x80 + c % 0x40]
  else
    [0xF0 + c / 0x40000, 0x80 + (c / 0x1000) % 0x40,
     0x80 + (c / 0x40) % 0x40, 0x80 + c % 0x40]

/-- `.encode("utf-8")` on a sequence of code points. -/
def utf8Encode (cps : List Nat) : List Nat :=
  (cps.map utf8EncodeChar).flatten

/-- Python text mode's universal-newline translation on code points:
CRLF becomes LF and a lone CR becomes LF. -/
def universalNewlines : List Nat → List Nat
  | 13 :: 10 :: rest => 10 :: universalNewlines rest
  | 13 :: rest => 10 :: universalNewlines rest
  | c :: rest => c :: universalNewlines rest
  | [] => []

/-- The bytes `validate_etag` feeds to md5: `open(CSV_FILE_PATH).read()`
(text mode: strict UTF-8 decode plus universal newlines) followed by
`.encode("utf-8")`. Returns `none` when the decode raises UnicodeDecodeError. -/
def local_digest_input (fileBytes : List Nat) : Option (List Nat) :=
  (utf8Decode fileBytes).map (fun cps => utf8Encode (universalNewlines cps))

/-- Python's `str.strip(qq)` where the stripped set is the double-quote
character: drop all leading and trailing double quotes. -/
def stripQuotes (s : String) : String :=
  String.mk
    (((s.data.dropWhile (fun c => c = Char.ofNat 34)).reverse.dropWhile
        (fun c => c = Char.ofNat 34)).reverse)

/-- The `validate_etag` task body: fetch the object at the descriptor's
bucket and key, strip quoting from its backend-reported digest, hash the
local file, and raise an AirflowException on mismatch, otherwise pass the
descriptor through. `etagOf` is the digest string the backend reports for
stored content; `md5hex` is `hashlib.md5(...).hexdigest()`. -/
def validate_etag (store : S3Store) (etagOf : List Nat → String)
    (fs : String → Option (List Nat)) (md5hex : List Nat → String)
    (s3_data : S3Data) : Except PyError S3Data :=
  match lookupStore store s3_data.s3_bucket s3_data.s3_key with
  | none => .error .noSuchKey
  | some content =>
    let obj_etag := stripQuotes (etagOf content)
    match fs CSV_FILE_PATH with
    | none => .error .fileNotFound
    | some fileBytes =>
      match local_digest_input fileBytes with
      | none => .error .unicodeDecodeError
      | some hashInput =>
        let file_hash := md5hex hashInput
        if obj_etag ≠ file_hash then
          .error (.airflowException
            "Upload Error: Object ETag in S3 did not match hash of local file.")
        else .ok s3_data

/-- A parameter dictionary, ordered like a Python dict. -/
abbrev RowParams := List (String × String)

/-- Python dict assignment `d[k] = v`: overwrite in place when the key is
present, otherwise append the new pair at the end. -/
def dictSet (d : RowParams) (k v : String) : RowParams :=
  if d.any (fun p => p.1 = k) then d.map (fun p => if p.1 = k then (k, v) else p)
  else d ++ [(k, v)]

/-- Python dict lookup `d.get(k)`. -/
def dictGet : RowParams → String → Option String
  | [], _ => none
  | p :: rest, k => if p.1 = k then some p.2 else dictGet rest k

/-- One generated `SQLCheckOperator` of the `row_quality_checks` TaskGroup. -/
structure CheckTask where
  task_id : String
  conn_id : String
  sql : String
  params : RowParams
  deriving Repr, DecidableEq

/-- The TaskGroup for-loop over the ground-truth mapping: for each entry
`(id, values)` set `values["id"] = id` and `values["redshift_table"]` to the
configured table, then instantiate one SQLCheckOperator whose task id is
`forestfire_row_quality_check_<id>`. The ground-truth JSON file itself is not
part of the analysed sources, so the mapping is a parameter. -/
def row_quality_checks (ffv_json : List (String × RowParams))
    (redshift_table : String) : List CheckTask :=
  ffv_json.map (fun entry =>
    let values := dictSet (dictSet entry.2 "id" entry.1) "redshift_table" redshift_table
    { task_id := "forestfire_row_quality_check_" ++ entry.1,
      conn_id := "redshift_default",
      sql := "sql/forestfire_row_quality_check.sql",
      params := values })

/-- The tasks of the DAG. The row-check tasks are indexed by the record
identifier of the ground-truth entry they were generated from. -/
inductive TaskNode where
  | upload_file
  | validate_file
  | create_table
  | load_to_redshift
  | validate_redshift
  | row_check (id : String)
  | done_marker
  deriving Repr, DecidableEq

open TaskNode in
/-- The dependency edges the DAG file declares, given the record identifiers
of the ground-truth mapping: the TaskFlow data dependency
`validate_etag(upload_file)`, the four `>>` statements at the end of the
file, with `validate_redshift >> quality_check_group` and
`quality_check_group >> done` expanded to the group's member tasks. -/
def declaredEdges (ids : List String) : List (TaskNode × TaskNode) :=
  [(upload_file, validate_file),
   (validate_file, create_table),
   (create_table, load_to_redshift),
   (load_to_redshift, validate_redshift)]
  ++ ids.map (fun i => (validate_redshift, row_check i))
  ++ ids.map (fun i => (row_check i, done_marker))

/-- The edge relation of the declared graph. -/
def edgeRel (ids : List String) (u v : TaskNode) : Prop :=
  (u, v) ∈ declaredEdges ids

/-- `u` is a strict ancestor of `v` in the declared graph: some non-empty
chain of declared edges leads from `u` to `v`. Under Airflow's default
`all_success` trigger rule a task instance is not executed once any strict
ancestor has failed. -/
def ancestor (ids : List String) (u v : TaskNode) : Prop :=
  Relation.TransGen (edgeRel ids) u v

/-- A task is blocked in a run when some task in the failed set is a strict
ancestor of it; a blocked task is not executed. -/
def blocked (ids : List String) (failed : List TaskNode) (t : TaskNode) : Prop :=
  ∃ u ∈ failed, ancestor ids u t

/-! ### Helper lemmas -/

theorem lookup_s3_load_file_self (store : S3Store) (bytes : List Nat)
    (key bucket : String) :
    lookupStore (s3_load_file store bytes key bucket) bucket key = some bytes := by
  simp [s3_load_file, lookupStore]

theorem countAtKey_s3_load_file (store : S3Store) (bytes : List Nat)
    (key bucket : String) :
    countAtKey (s3_load_file store bytes key bucket) bucket key = 1 := by
  simp only [countAtKey, s3_load_file, List.countP_cons, List.countP_filter]
  simp

/-! ### Theorems for the claims -/

/-- C1: for an upload descriptor whose stored-object digest (ETag with
quotes stripped) equals the MD5 digest of the local file, `validate_etag`
returns exactly its input descriptor and raises no error. The hypothesis
`htext` states that the text-mode read returns the file's own bytes, which
holds for the valid CR-free UTF-8 content the pipeline ships. -/
theorem validate_etag_match_passes_descriptor (store : S3Store)
    (etagOf : List Nat → String) (fs : String → Option (List Nat))
    (md5hex : List Nat → String) (d : S3Data) (content fileBytes : List Nat)
    (hobj : lookupStore store d.s3_bucket d.s3_key = some content)
    (hread : fs CSV_FILE_PATH = some fileBytes)
    (htext : local_digest_input fileBytes = some fileBytes)
    (hmatch : stripQuotes (etagOf content) = md5hex fileBytes) :
    validate_etag store etagOf fs md5hex d = .ok d := by
  simp [validate_etag, hobj, hread, htext, hmatch]

theorem validate_etag_match_witness :
    lookupStore [⟨"b", "k", [97]⟩] (S3Data.mk "b" "k").s3_bucket (S3Data.mk "b" "k").s3_key
        = some [97]
    ∧ (fun _ => some [97]) CSV_FILE_PATH = some [97]
    ∧ local_digest_input [97] = some [97]
    ∧ stripQuotes ((fun _ => String.mk [Char.ofNat 34, Char.ofNat 104, Char.ofNat 34]) [97])
        = (fun _ => "h") [97]
    ∧ validate_etag [⟨"b", "k", [97]⟩]
        (fun _ => String.mk [Char.ofNat 34, Char.ofNat 104, Char.ofNat 34])
        (fun _ => some [97]) (fun _ => "h") (S3Data.mk "b" "k") = .ok (S3Data.mk "b" "k") :=
  ⟨by decide, rfl, by decide, by decide,
   validate_etag_match_passes_descriptor _ _ _ _ _ [97] [97]
     (by decide) rfl (by decide) (by decide)⟩

/-- C3: the digest input the verifier hashes is not the raw bytes of the
local file: `open(CSV_FILE_PATH).read().encode("utf-8")` applies text-mode
universal-newline translation (CRLF becomes LF) and strict UTF-8 decoding,
so for the file content b"a\x0d\x0ab" the hashed bytes are b"a\x0ab", and
for the non-UTF-8 content b"\xff" the read raises UnicodeDecodeError
instead of producing a digest. -/
theorem local_digest_input_text_mode_bug :
    local_digest_input [97, 13, 10, 98] = some [97, 10, 98]
    ∧ local_digest_input [97, 13, 10, 98] ≠ some [97, 13, 10, 98]
    ∧ local_digest_input [255] = none := by
  refine ⟨by decide, by decide, by decide⟩

/-- C4: for every configuration record, `upload_to_s3` writes the local
file's bytes to the configured bucket under the key
`s3_key_prefix + "/" + CSV_FILE_PATH`, overwriting any existing object at
that key, and returns the descriptor whose fields are exactly that bucket
and key. -/
theorem upload_to_s3_writes_and_returns_coordinates (cfg : AwsConfigs)
    (fs : String → Option (List Nat)) (store : S3Store) (bytes : List Nat)
    (h : fs CSV_FILE_PATH = some bytes) :
    ∃ store2,
      upload_to_s3 cfg fs store
        = .ok (store2, S3Data.mk cfg.s3_bucket (cfg.s3_key_pfx ++ "/" ++ CSV_FILE_PATH))
      ∧ lookupStore store2 cfg.s3_bucket (cfg.s3_key_pfx ++ "/" ++ CSV_FILE_PATH)
          = some bytes := by
  refine ⟨s3_load_file store bytes (cfg.s3_key_pfx ++ "/" ++ CSV_FILE_PATH) cfg.s3_bucket,
    ?_, lookup_s3_load_file_self _ _ _ _⟩
  simp [upload_to_s3, h]

theorem upload_to_s3_witness :
    (fun p => if p = CSV_FILE_PATH then some [97, 98] else none) CSV_FILE_PATH
        = some ([97, 98])
    ∧ ∃ store2,
        upload_to_s3 (AwsConfigs.mk "bkt" "pre" "tbl")
            (fun p => if p = CSV_FILE_PATH then some [97, 98] else none) []
          = .ok (store2, S3Data.mk "bkt" ("pre" ++ "/" ++ CSV_FILE_PATH))
        ∧ lookupStore store2 "bkt" ("pre" ++ "/" ++ CSV_FILE_PATH) = some [97, 98] :=
  ⟨by simp,
   upload_to_s3_writes_and_returns_coordinates (AwsConfigs.mk "bkt" "pre" "tbl")
     _ [] [97, 98] (by simp)⟩

/-- C5: re-running the upload against a key that already holds an object is
idempotent: the replace-mode load succeeds and afterwards exactly one
object sits at that key, holding the local file's bytes. -/
theorem upload_to_s3_idempotent_replace (cfg : AwsConfigs)
    (fs : String → Option (List Nat)) (store : S3Store)
    (bytes old : List Nat)
    (hread : fs CSV_FILE_PATH = some bytes)
    (hexists : lookupStore store cfg.s3_bucket (cfg.s3_key_pfx ++ "/" ++ CSV_FILE_PATH)
        = some old) :
    ∃ store2 d,
      upload_to_s3 cfg fs store = .ok (store2, d)
      ∧ countAtKey store2 cfg.s3_bucket (cfg.s3_key_pfx ++ "/" ++ CSV_FILE_PATH) = 1
      ∧ lookupStore store2 cfg.s3_bucket (cfg.s3_key_pfx ++ "/" ++ CSV_FILE_PATH)
          = some bytes := by
  refine ⟨s3_load_file store bytes (cfg.s3_key_pfx ++ "/" ++ CSV_FILE_PATH) cfg.s3_bucket,
    S3Data.mk cfg.s3_bucket (cfg.s3_key_pfx ++ "/" ++ CSV_FILE_PATH), ?_,
    countAtKey_s3_load_file _ _ _ _, lookup_s3_load_file_self _ _ _ _⟩
  simp [upload_to_s3, hread]

theorem upload_idempotent_witness :
    (fun _ => some [97]) CSV_FILE_PATH = some [97]
    ∧ lookupStore [⟨"bkt", "pre" ++ "/" ++ CSV_FILE_PATH, [99]⟩] "bkt"
        ("pre" ++ "/" ++ CSV_FILE_PATH) = some [99]
    ∧ ∃ store2 d,
        upload_to_s3 (AwsConfigs.mk "bkt" "pre" "tbl") (fun _ => some [97])
            [⟨"bkt", "pre" ++ "/" ++ CSV_FILE_PATH, [99]⟩]
          = .ok (store2, d)
        ∧ countAtKey store2 "bkt" ("pre" ++ "/" ++ CSV_FILE_PATH) = 1
        ∧ lookupStore store2 "bkt" ("pre" ++ "/" ++ CSV_FILE_PATH) = some [97] :=
  ⟨rfl, by simp [lookupStore],
   upload_to_s3_idempotent_replace (AwsConfigs.mk "bkt" "pre" "tbl") _ _ [97] [99]
     rfl (by simp [lookupStore])⟩

theorem dictGet_append (d1 d2 : RowParams) (k : String) :
    dictGet (d1 ++ d2) k = ((dictGet d1 k).rec (dictGet d2 k) (fun v => some v)) := by
  induction d1 with
  | nil => simp [dictGet]
  | cons p rest ih =>
    by_cases hp : p.1 = k <;> simp [dictGet, hp, ih]

theorem dictGet_eq_none_of_any_false (d : RowParams) (k : String)
    (h : d.any (fun p => p.1 = k) = false) : dictGet d k = none := by
  induction d with
  | nil => rfl
  | cons p rest ih =>
    simp only [List.any_cons, Bool.or_eq_false_iff] at h
    have hp : ¬ p.1 = k := by
      intro hk
      simp [hk] at h
    simp [dictGet, hp, ih h.2]

theorem dictGet_map_replace_self (d : RowParams) (k v : String)
    (h : d.any (fun p => p.1 = k) = true) :
    dictGet (d.map (fun p => if p.1 = k then (k, v) else p)) k = some v := by
  induction d with
  | nil => simp at h
  | cons p rest ih =>
    by_cases hp : p.1 = k
    · simp [dictGet, hp]
    · simp only [List.any_cons, Bool.or_eq_true_iff] at h
      have hrest : rest.any (fun p => p.1 = k) = true := by
        rcases h with h1 | h2
        · exact absurd (of_decide_eq_true h1) hp
        · exact h2
      simp [dictGet, hp, ih hrest]

theorem dictGet_map_replace_other (d : RowParams) (k v k2 : String)
    (h : k2 ≠ k) :
    dictGet (d.map (fun p => if p.1 = k then (k, v) else p)) k2 = dictGet d k2 := by
  induction d with
  | nil => rfl
  | cons p rest ih =>
    by_cases hp : p.1 = k
    · have : ¬ k = k2 := fun hk => h hk.symm
      simp [dictGet, hp, this, hp ▸ this, ih]
    · simp [dictGet, hp, ih]

theorem dictGet_dictSet_self (d : RowParams) (k v : String) :
    dictGet (dictSet d k v) k = some v := by
  unfold dictSet
  split
  · rename_i h
    exact dictGet_map_replace_self d k v (by simpa using h)
  · rename_i h
    rw [dictGet_append, dictGet_eq_none_of_any_false d k (Bool.eq_false_iff.mpr h)]
    simp [dictGet]

theorem dictGet_dictSet_other (d : RowParams) (k v k2 : String) (h : k2 ≠ k) :
    dictGet (dictSet d k v) k2 = dictGet d k2 := by
  unfold dictSet
  split
  · exact dictGet_map_replace_other d k v k2 h
  · rw [dictGet_append]
    cases hd : dictGet d k2 with
    | some w => rfl
    | none =>
      have hkk : ¬ k = k2 := fun hk => h hk.symm
      simp [dictGet, hkk]

theorem check_task_prefix_injective :
    Function.Injective (fun s => "forestfire_row_quality_check_" ++ s) := by
  intro a b hab
  have hab2 : "forestfire_row_quality_check_" ++ a
      = "forestfire_row_quality_check_" ++ b := hab
  have hd : ("forestfire_row_quality_check_" ++ a).data
      = ("forestfire_row_quality_check_" ++ b).data := by rw [hab2]
  simp only [String.data_append] at hd
  exact String.ext (List.append_cancel_left hd)

/-- C6: a ground-truth mapping with N record entries yields exactly N check
tasks, one per identifier, each with the task id
`forestfire_row_quality_check_<id>`; distinct identifiers give distinct task
ids, and the empty mapping gives zero tasks. -/
theorem row_quality_checks_one_task_per_record
    (ffv : List (String × RowParams)) (redshift_table : String)
    (hids : (ffv.map Prod.fst).Nodup) :
    (row_quality_checks ffv redshift_table).length = ffv.length
    ∧ (row_quality_checks ffv redshift_table).map CheckTask.task_id
        = ffv.map (fun e => "forestfire_row_quality_check_" ++ e.1)
    ∧ ((row_quality_checks ffv redshift_table).map CheckTask.task_id).Nodup
    ∧ row_quality_checks [] redshift_table = [] := by
  refine ⟨by simp [row_quality_checks], by simp [row_quality_checks], ?_, rfl⟩
  have : (row_quality_checks ffv redshift_table).map CheckTask.task_id
      = (ffv.map Prod.fst).map (fun s => "forestfire_row_quality_check_" ++ s) := by
    simp [row_quality_checks]
  rw [this]
  exact hids.map check_task_prefix_injective

theorem row_quality_checks_witness :
    (([("0", [("y", "2")]), ("1", [("y", "3")])].map Prod.fst).Nodup
        : Prop)
    ∧ (row_quality_checks [("0", [("y", "2")]), ("1", [("y", "3")])] "tbl").length = 2
    ∧ ((row_quality_checks [("0", [("y", "2")]), ("1", [("y", "3")])] "tbl").map
        CheckTask.task_id).Nodup :=
  ⟨by decide,
   (row_quality_checks_one_task_per_record _ "tbl" (by decide)).1,
   (row_quality_checks_one_task_per_record [("0", [("y", "2")]), ("1", [("y", "3")])]
     "tbl" (by decide)).2.2.1⟩

/-- C9: every generated check task carries the record's expected values with
the key "id" bound to the record identifier and the key "redshift_table"
bound to the configured table name, and leaves every other key's value as in
the ground-truth entry. -/
theorem row_check_params_address_single_row
    (ffv : List (String × RowParams)) (redshift_table : String)
    (entry : String × RowParams) (hmem : entry ∈ ffv) :
    ∃ t ∈ row_quality_checks ffv redshift_table,
      t.task_id = "forestfire_row_quality_check_" ++ entry.1
      ∧ dictGet t.params "redshift_table" = some redshift_table
      ∧ dictGet t.params "id" = some entry.1
      ∧ ∀ k, k ≠ "id" → k ≠ "redshift_table" →
          dictGet t.params k = dictGet entry.2 k := by
  refine ⟨_, List.mem_map_of_mem _ hmem, rfl, ?_, ?_, ?_⟩
  · exact dictGet_dictSet_self _ _ _
  · rw [dictGet_dictSet_other _ _ _ _ (by decide)]
    exact dictGet_dictSet_self _ _ _
  · intro k hk1 hk2
    rw [dictGet_dictSet_other _ _ _ _ hk2, dictGet_dictSet_other _ _ _ _ hk1]

theorem row_check_params_witness :
    ("7", [("y", "5")]) ∈ [("7", ([("y", "5")] : RowParams))]
    ∧ ∃ t ∈ row_quality_checks [("7", [("y", "5")])] "tbl",
        t.task_id = "forestfire_row_quality_check_" ++ "7"
        ∧ dictGet t.params "redshift_table" = some "tbl"
        ∧ dictGet t.params "id" = some "7"
        ∧ ∀ k, k ≠ "id" → k ≠ "redshift_table" →
            dictGet t.params k = dictGet [("y", "5")] k :=
  ⟨by decide,
   row_check_params_address_single_row [("7", [("y", "5")])] "tbl"
     ("7", [("y", "5")]) (by decide)⟩

theorem mem_declaredEdges (ids : List String) (u v : TaskNode) :
    (u, v) ∈ declaredEdges ids ↔
      (u = .upload_file ∧ v = .validate_file)
      ∨ (u = .validate_file ∧ v = .create_table)
      ∨ (u = .create_table ∧ v = .load_to_redshift)
      ∨ (u = .load_to_redshift ∧ v = .validate_redshift)
      ∨ (∃ i ∈ ids, u = .validate_redshift ∧ v = .row_check i)
      ∨ (∃ i ∈ ids, u = .row_check i ∧ v = .done_marker) := by
  simp only [declaredEdges, List.mem_append, List.mem_cons, List.mem_map,
    List.not_mem_nil, or_false, Prod.mk.injEq]
  aesop

theorem row_check_edge_target (ids : List String) (i : String) (v : TaskNode)
    (h : edgeRel ids (.row_check i) v) : v = .done_marker := by
  rcases (mem_declaredEdges ids _ v).mp h with
    ⟨h1, _⟩ | ⟨h1, _⟩ | ⟨h1, _⟩ | ⟨h1, _⟩ | ⟨j, _, h1, _⟩ | ⟨j, _, _, h2⟩
  all_goals first | exact h2 | cases h1

theorem done_marker_no_out (ids : List String) (v : TaskNode) :
    ¬ edgeRel ids .done_marker v := by
  intro h
  rcases (mem_declaredEdges ids _ v).mp h with
    ⟨h1, _⟩ | ⟨h1, _⟩ | ⟨h1, _⟩ | ⟨h1, _⟩ | ⟨j, _, h1, _⟩ | ⟨j, _, h1, _⟩
  all_goals cases h1

theorem ancestor_from_row_check (ids : List String) (i : String) (v : TaskNode)
    (h : ancestor ids (.row_check i) v) : v = .done_marker := by
  induction h with
  | single h1 => exact row_check_edge_target ids i _ h1
  | tail _ h2 ih =>
    rw [ih] at h2
    exact absurd h2 (done_marker_no_out ids _)

/-- C7: the declared dependency graph is exactly the linear chain
upload -> ETag verification -> table creation -> warehouse load ->
load-integrity check, followed by a fan-out of one edge from the
load-integrity check into each row-level check and one edge from each
row-level check into the terminal marker; no other edges exist (in
particular none between sibling checks). -/
theorem declared_edges_chain_and_fanout (ids : List String) (u v : TaskNode) :
    (u, v) ∈ declaredEdges ids ↔
      (u = .upload_file ∧ v = .validate_file)
      ∨ (u = .validate_file ∧ v = .create_table)
      ∨ (u = .create_table ∧ v = .load_to_redshift)
      ∨ (u = .load_to_redshift ∧ v = .validate_redshift)
      ∨ (∃ i ∈ ids, u = .validate_redshift ∧ v = .row_check i)
      ∨ (∃ i ∈ ids, u = .row_check i ∧ v = .done_marker) :=
  mem_declaredEdges ids u v

theorem declared_edges_witness :
    ((TaskNode.upload_file, TaskNode.validate_file) ∈ declaredEdges ["1"])
    ∧ ¬ ((TaskNode.row_check "1", TaskNode.row_check "1") ∈ declaredEdges ["1"]) :=
  ⟨(declared_edges_chain_and_fanout ["1"] _ _).mpr (Or.inl ⟨rfl, rfl⟩),
   fun h => by
    rcases (declared_edges_chain_and_fanout ["1"] _ _).mp h with
      ⟨h1, _⟩ | ⟨h1, _⟩ | ⟨h1, _⟩ | ⟨h1, _⟩ | ⟨j, _, h1, _⟩ | ⟨j, _, _, h2⟩
    all_goals first | cases h1 | cases h2⟩

/-- C8: sibling row-level checks are independent: no declared edge joins two
row-check tasks, and when one record's check fails no sibling check is
blocked by it (the failed check is not a strict ancestor of any sibling), so
every sibling still evaluates and reports. -/
theorem sibling_row_checks_independent (ids : List String) (i j : String)
    (hi : i ∈ ids) (hj : j ∈ ids) (hne : i ≠ j) :
    ((TaskNode.row_check i, TaskNode.row_check j) ∉ declaredEdges ids)
    ∧ ¬ blocked ids [.row_check i] (.row_check j) := by
  constructor
  · intro h
    cases row_check_edge_target ids i _ h
  · rintro ⟨u, hu, hanc⟩
    rw [List.mem_singleton] at hu
    subst hu
    cases ancestor_from_row_check ids i _ hanc

theorem sibling_row_checks_witness :
    ("1" ∈ ["1", "2"] ∧ "2" ∈ ["1", "2"] ∧ ("1" : String) ≠ "2")
    ∧ ((TaskNode.row_check "1", TaskNode.row_check "2") ∉ declaredEdges ["1", "2"])
    ∧ ¬ blocked ["1", "2"] [.row_check "1"] (.row_check "2") :=
  ⟨⟨by decide, by decide, by decide⟩,
   (sibling_row_checks_independent ["1", "2"] "1" "2" (by decide) (by decide)
     (by decide)).1,
   (sibling_row_checks_independent ["1", "2"] "1" "2" (by decide) (by decide)
     (by decide)).2⟩

/-- C2: on a digest mismatch `validate_etag` raises an AirflowException, and
every downstream warehouse step — table creation, the Redshift load, the
load-integrity check, each row check, and the terminal marker — has the
verification task as a strict ancestor in the declared graph, so under the
all-success trigger rule none of them executes. -/
theorem validate_etag_mismatch_fatal_blocks_downstream (store : S3Store)
    (etagOf : List Nat → String) (fs : String → Option (List Nat))
    (md5hex : List Nat → String) (d : S3Data) (content fileBytes : List Nat)
    (ids : List String) (i : String)
    (hobj : lookupStore store d.s3_bucket d.s3_key = some content)
    (hread : fs CSV_FILE_PATH = some fileBytes)
    (htext : local_digest_input fileBytes = some fileBytes)
    (hmismatch : stripQuotes (etagOf content) ≠ md5hex fileBytes)
    (hi : i ∈ ids) :
    validate_etag store etagOf fs md5hex d
      = .error (.airflowException
          "Upload Error: Object ETag in S3 did not match hash of local file.")
    ∧ blocked ids [.validate_file] .create_table
    ∧ blocked ids [.validate_file] .load_to_redshift
    ∧ blocked ids [.validate_file] .validate_redshift
    ∧ blocked ids [.validate_file] (.row_check i)
    ∧ blocked ids [.validate_file] .done_marker := by
  have e1 : edgeRel ids .validate_file .create_table :=
    (mem_declaredEdges ids _ _).mpr (Or.inr (Or.inl ⟨rfl, rfl⟩))
  have e2 : edgeRel ids .create_table .load_to_redshift :=
    (mem_declaredEdges ids _ _).mpr (Or.inr (Or.inr (Or.inl ⟨rfl, rfl⟩)))
  have e3 : edgeRel ids .load_to_redshift .validate_redshift :=
    (mem_declaredEdges ids _ _).mpr (Or.inr (Or.inr (Or.inr (Or.inl ⟨rfl, rfl⟩))))
  have e4 : edgeRel ids .validate_redshift (.row_check i) :=
    (mem_declaredEdges ids _ _).mpr
      (Or.inr (Or.inr (Or.inr (Or.inr (Or.inl ⟨i, hi, rfl, rfl⟩)))))
  have e5 : edgeRel ids (.row_check i) .done_marker :=
    (mem_declaredEdges ids _ _).mpr
      (Or.inr (Or.inr (Or.inr (Or.inr (Or.inr ⟨i, hi, rfl, rfl⟩)))))
  have a1 : ancestor ids .validate_file .create_table := Relation.TransGen.single e1
  have a2 : ancestor ids .validate_file .load_to_redshift := a1.tail e2
  have a3 : ancestor ids .validate_file .validate_redshift := a2.tail e3
  have a4 : ancestor ids .validate_file (.row_check i) := a3.tail e4
  have a5 : ancestor ids .validate_file .done_marker := a4.tail e5
  exact ⟨by simp [validate_etag, hobj, hread, htext, hmismatch],
    ⟨_, List.mem_singleton_self _, a1⟩, ⟨_, List.mem_singleton_self _, a2⟩,
    ⟨_, List.mem_singleton_self _, a3⟩, ⟨_, List.mem_singleton_self _, a4⟩,
    ⟨_, List.mem_singleton_self _, a5⟩⟩

theorem validate_etag_mismatch_witness :
    lookupStore [⟨"b", "k", [97]⟩] (S3Data.mk "b" "k").s3_bucket
        (S3Data.mk "b" "k").s3_key = some [97]
    ∧ (fun _ => some [97]) CSV_FILE_PATH = some [97]
    ∧ local_digest_input [97] = some [97]
    ∧ stripQuotes ((fun _ => "g") [97]) ≠ (fun _ => "h") [97]
    ∧ ("1" : String) ∈ ["1"]
    ∧ validate_etag [⟨"b", "k", [97]⟩] (fun _ => "g") (fun _ => some [97])
        (fun _ => "h") (S3Data.mk "b" "k")
      = .error (.airflowException
          "Upload Error: Object ETag in S3 did not match hash of local file.")
    ∧ blocked ["1"] [.validate_file] .done_marker :=
  ⟨by decide, rfl, by decide, by decide, by decide,
   (validate_etag_mismatch_fatal_blocks_downstream [⟨"b", "k", [97]⟩] (fun _ => "g")
     (fun _ => some [97]) (fun _ => "h") (S3Data.mk "b" "k") [97] [97] ["1"] "1"
     (by decide) rfl (by decide) (by decide) (by decide)).1,
   (validate_etag_mismatch_fatal_blocks_downstream [⟨"b", "k", [97]⟩] (fun _ => "g")
     (fun _ => some [97]) (fun _ => "h") (S3Data.mk "b" "k") [97] [97] ["1"] "1"
     (by decide) rfl (by decide) (by decide) (by decide)).2.2.2.2.2⟩

/-- C10: the verifier checks exactly the object the uploader wrote: for
every configuration record, after `upload_to_s3` succeeds, the store holds
the uploaded bytes at precisely the bucket and key of the returned
descriptor, and `validate_etag`'s dependence on the local filesystem goes
only through the content at the constant path `CSV_FILE_PATH` — the same
path the uploader read. -/
theorem validate_etag_checks_uploaded_object (cfg : AwsConfigs)
    (fs : String → Option (List Nat)) (store : S3Store) (bytes : List Nat)
    (h : fs CSV_FILE_PATH = some bytes) :
    ∃ store2 d,
      upload_to_s3 cfg fs store = .ok (store2, d)
      ∧ lookupStore store2 d.s3_bucket d.s3_key = some bytes
      ∧ ∀ (fs2 : String → Option (List Nat)) (etagOf : List Nat → String)
          (md5hex : List Nat → String),
          fs2 CSV_FILE_PATH = fs CSV_FILE_PATH →
          validate_etag store2 etagOf fs2 md5hex d
            = validate_etag store2 etagOf fs md5hex d := by
  refine ⟨s3_load_file store bytes (cfg.s3_key_pfx ++ "/" ++ CSV_FILE_PATH) cfg.s3_bucket,
    S3Data.mk cfg.s3_bucket (cfg.s3_key_pfx ++ "/" ++ CSV_FILE_PATH),
    by simp [upload_to_s3, h], lookup_s3_load_file_self _ _ _ _, ?_⟩
  intro fs2 etagOf md5hex hfs2
  unfold validate_etag
  rw [hfs2]

theorem validate_etag_checks_uploaded_witness :
    (fun _ => some [97]) CSV_FILE_PATH = some [97]
    ∧ ∃ store2 d,
        upload_to_s3 (AwsConfigs.mk "bkt" "pre" "tbl") (fun _ => some [97]) []
          = .ok (store2, d)
        ∧ lookupStore store2 d.s3_bucket d.s3_key = some [97]
        ∧ ∀ (fs2 : String → Option (List Nat)) (etagOf : List Nat → String)
            (md5hex : List Nat → String),
            fs2 CSV_FILE_PATH = (fun _ => some [97]) CSV_FILE_PATH →
            validate_etag store2 etagOf fs2 md5hex d
              = validate_etag store2 etagOf (fun _ => some [97]) md5hex d :=
  ⟨rfl,
   validate_etag_checks_uploaded_object (AwsConfigs.mk "bkt" "pre" "tbl")
     (fun _ => some [97]) [] [97] rfl⟩

end SimpleEl3
